import Mathlib

/-!
Verification of the tourism web application's data-shaping logic.

This file gives a shallow embedding, in Lean, of the pure computational core
of the repository:

* `lib/api/tour-api.ts` — retry policy (`RETRY_CONFIG`, `calculateBackoffDelay`,
  `isRetryableError`, `withRetry`), the per-operation error wrapping, and the
  coordinate conversion `convertKATECToWGS84`;
* `lib/api/stats-api.ts` — percentage attachment in `getRegionStatsInternal` /
  `getTypeStatsInternal`, and the top-3 extraction in `getStatsSummaryInternal`;
* `lib/utils/pet-filter.ts` — `isPetAllowed`, `matchesPetSize`, `isPetSizeMatch`
  and `filterToursByPet` (current version, with the `acmpyTypeCd` priority
  check and the extended keyword lists);
* `app/page.tsx` (`Home`) — the multi-region batch merge, the per-item pet-info
  resolution chain, and the post-filter pagination.

JavaScript strings are modelled by Lean `String`; `undefined`-able values by
`Option`; thrown exceptions by an explicit error type or `Option`/`Except`
results; `async` call graphs by explicit oracle functions supplying each
upstream call's outcome.  JS numbers appearing here are either small integers
(modelled by `Nat`) or exact decimal quantities (modelled by `ℚ`).
-/

/-! ## JavaScript string primitives

Small executable models of the JS string operations the source uses:
`String.prototype.toLowerCase`, `String.prototype.includes`,
truthiness of `s.trim()`, `Array.prototype.join(' ')`,
`String.prototype.substring(0, n)`, and `parseInt`/`parseFloat`
restricted to the digit strings the upstream API delivers.
-/

/-- `leadsWith pat l` is true when `pat` occurs at the start of `l`
(character-list analogue of a prefix test). -/
def leadsWith : List Char → List Char → Bool
  | [], _ => true
  | _ :: _, [] => false
  | a :: as, b :: bs => a == b && leadsWith as bs

/-- `occursIn pat l` is true when `pat` occurs contiguously somewhere in `l`;
this models `String.prototype.includes` at the character-list level. -/
def occursIn (pat : List Char) : List Char → Bool
  | [] => pat.isEmpty
  | c :: rest => leadsWith pat (c :: rest) || occursIn pat rest

/-- Model of `text.includes(pat)` on JS strings. -/
def containsStr (text pat : String) : Bool :=
  occursIn pat.data text.data

/-- Model of `s.toLowerCase()`.  The source only lowercases Korean text and
ASCII, so ASCII lowercasing is an adequate model. -/
def lowerStr (s : String) : String :=
  ⟨s.data.map Char.toLower⟩

/-- `isBlank s` is true when `s` consists only of whitespace; this is exactly
the condition under which the JS expression `s.trim()` is falsy. -/
def isBlank (s : String) : Bool :=
  s.data.all Char.isWhitespace

/-- Truthiness of `o?.trim()` for an optional string `o`: false when the value
is absent, empty, or all whitespace. -/
def optTruthyTrim (o : Option String) : Bool :=
  match o with
  | none => false
  | some s => !(isBlank s)

/-- Model of `Array.prototype.join(' ')` on a list of strings. -/
def jsJoinSp : List String → String
  | [] => ""
  | [s] => s
  | s :: rest => s ++ " " ++ jsJoinSp rest

/-- `[...].filter(Boolean)` over an array of `string | undefined` entries:
drops `undefined` and the empty string. -/
def truthyFields (fields : List (Option String)) : List String :=
  (fields.filterMap id).filter (fun s => s ≠ "")

/-- Model of `s.substring(0, 100)`. -/
def take100 (s : String) : String :=
  ⟨s.data.take 100⟩

/-- Numeric value of a list of decimal digits. -/
def digitsToNat (l : List Char) : ℕ :=
  l.foldl (fun acc c => acc * 10 + (c.toNat - '0'.toNat)) 0

/-- Model of `parseInt(s || '0', 10)` on the digit strings the upstream API
uses for `modifiedtime` (e.g. `"20240101120000"`): the value of the leading
run of digits, `0` when there is none. -/
def parseIntD (s : String) : ℕ :=
  digitsToNat (s.data.takeWhile Char.isDigit)

/-- Model of `parseFloat(s)` restricted to non-negative integer digit strings,
the only shape the upstream fixed-point coordinate fields take; any other
input yields `none` (modelling `NaN`). -/
def parseFloatQ (s : String) : Option ℚ :=
  if s.data ≠ [] ∧ s.data.all Char.isDigit then
    some ((digitsToNat s.data : ℤ) : ℚ)
  else
    none

/-- Model of `Math.ceil(a / b)` for natural `a` and positive natural `b`. -/
def jsCeilDiv (a b : ℕ) : ℕ :=
  (a + b - 1) / b

/-! ## Retry policy (`lib/api/tour-api.ts`)

```
const RETRY_CONFIG = { maxRetries: 3, initialDelay: 1000, maxDelay: 4000 };
```
-/

def RETRY_CONFIG_maxRetries : ℕ := 3
def RETRY_CONFIG_initialDelay : ℕ := 1000
def RETRY_CONFIG_maxDelay : ℕ := 4000

/-- The shapes of thrown values that `getErrorType` distinguishes.
`tourApi sc` is a `TourApiError` with optional `statusCode` (the message,
raw response and cause carried by the class do not influence any classifying
or retrying decision and are not modelled). `typeErrorFetch` is a `TypeError`
whose message mentions `fetch`; `typeErrorOther` any other `TypeError`;
`syntaxError` a JSON `SyntaxError`; `other` anything else. -/
inductive JsError where
  | tourApi (statusCode : Option ℕ)
  | typeErrorFetch
  | typeErrorOther
  | syntaxError
  | other
deriving DecidableEq

/-- `type ErrorType = 'network' | 'api' | 'parse' | 'unknown'` -/
inductive ErrorType where
  | network
  | api
  | parse
  | unknown
deriving DecidableEq

/-- `getErrorType` from `tour-api.ts`. -/
def getErrorType : JsError → ErrorType
  | .tourApi _ => .api
  | .typeErrorFetch => .network
  | .typeErrorOther => .unknown
  | .syntaxError => .parse
  | .other => .unknown

/-- `calculateBackoffDelay`:
`Math.min(RETRY_CONFIG.initialDelay * Math.pow(2, attempt), RETRY_CONFIG.maxDelay)`. -/
def calculateBackoffDelay (attempt : ℕ) : ℕ :=
  min (RETRY_CONFIG_initialDelay * 2 ^ attempt) RETRY_CONFIG_maxDelay

/-- `isRetryableError`:
`type === 'network' || (type === 'api' && error instanceof TourApiError &&
(!error.statusCode || error.statusCode >= 500))`.
Note `!error.statusCode` is true both when `statusCode` is `undefined` and
when it is `0`. -/
def isRetryableError (e : JsError) : Bool :=
  getErrorType e == .network ||
    (getErrorType e == .api &&
      (match e with
       | .tourApi none => true
       | .tourApi (some c) => c == 0 || 500 ≤ c
       | _ => false))

/-- The observable behaviour of one `withRetry` run: the final outcome, the
number of times `fn` was invoked, and the list of backoff delays awaited. -/
structure RetryTrace (α : Type) where
  result : Except JsError α
  calls : ℕ
  delays : List ℕ

/-- The body of `withRetry`'s `for` loop, from the iteration at index
`attempt` on, with `remaining = retries - attempt` further iterations
permitted after the current one.  `fn i` is the outcome of the `i`-th
invocation of the wrapped operation. -/
def withRetryGo {α : Type} (fn : ℕ → Except JsError α) (attempt : ℕ) :
    ℕ → RetryTrace α
  | 0 => { result := fn attempt, calls := 1, delays := [] }
  | remaining + 1 =>
    match fn attempt with
    | .ok v => { result := .ok v, calls := 1, delays := [] }
    | .error e =>
      if isRetryableError e then
        let t := withRetryGo fn (attempt + 1) remaining
        { result := t.result
          calls := t.calls + 1
          delays := calculateBackoffDelay attempt :: t.delays }
      else
        { result := .error e, calls := 1, delays := [] }

/-- `withRetry(fn, retries = RETRY_CONFIG.maxRetries)`: iterates
`for (let attempt = 0; attempt <= retries; attempt++)`, returning on success,
rethrowing immediately on a non-retryable error, and sleeping
`calculateBackoffDelay(attempt)` before each re-attempt. -/
def withRetry {α : Type} (fn : ℕ → Except JsError α)
    (retries : ℕ := RETRY_CONFIG_maxRetries) : RetryTrace α :=
  withRetryGo fn 0 retries

/-- The `catch` block every operation in `tour-api.ts` wraps its body in
(e.g. `getAreaBasedList`, lines building
`new TourApiError(message, undefined, undefined, error as Error)`):
whatever was thrown is replaced by a `TourApiError` whose `statusCode`
argument is `undefined`. -/
def wrapCaughtError (_e : JsError) : JsError :=
  JsError.tourApi none

/-- An upstream operation as `withRetry` sees it after the per-operation
`try`/`catch`: successes pass through, every failure is re-thrown as a
status-code-less `TourApiError`. -/
def wrappedOperation {α : Type} (raw : ℕ → Except JsError α)
    (i : ℕ) : Except JsError α :=
  match raw i with
  | .ok v => .ok v
  | .error e => .error (wrapCaughtError e)

/-! ## Coordinate conversion and bounding-box validation -/

/-- `convertKATECToWGS84(mapx, mapy)` from `tour-api.ts`:
`{ lng: parseFloat(mapx) / 10000000, lat: parseFloat(mapy) / 10000000 }`.
`none` models the `NaN` coordinates produced from unparseable input. -/
def convertKATECToWGS84 (mapx mapy : String) : Option (ℚ × ℚ) :=
  match parseFloatQ mapx, parseFloatQ mapy with
  | some x, some y => some (x / 10000000, y / 10000000)
  | _, _ => none

/-- Modelled from the spec: `isValidKoreanCoordinate` is imported from
`lib/api/tour-api` by `naver-map.tsx` and `detail-map.tsx` but its definition
is not among the provided sources; the spec says callers "validate the result
lies within a bounding box around the Korean peninsula (roughly 33–39°N,
124–132°E) before treating it as displayable". -/
def isValidKoreanCoordinate (lng lat : ℚ) : Bool :=
  decide (124 ≤ lng) && decide (lng ≤ 132) && decide (33 ≤ lat) && decide (lat ≤ 39)

/-- A fixed-point pair is displayable when it converts to coordinates that the
bounding-box check accepts (`NaN` coordinates are never accepted). -/
def isDisplayableCoordinate (mapx mapy : String) : Bool :=
  match convertKATECToWGS84 mapx mapy with
  | some (lng, lat) => isValidKoreanCoordinate lng lat
  | none => false

/-! ## Data model (`lib/types/tour.ts`) -/

/-- `PetTourInfo` as consumed by `pet-filter.ts` and `page.tsx`: the declared
interface fields plus the `detailPetTour2` response fields (`acmpyTypeCd`,
`etcAcmpyInfo`, `acmpyPsblCpam`, `acmpyNeedMtr`) that the current
`isPetAllowed` reads from the runtime object. -/
structure PetTourInfo where
  contentid : String := ""
  contenttypeid : String := ""
  chkpetleash : Option String := none
  chkpetsize : Option String := none
  chkpetplace : Option String := none
  chkpetfee : Option String := none
  petinfo : Option String := none
  acmpyTypeCd : Option String := none
  etcAcmpyInfo : Option String := none
  acmpyPsblCpam : Option String := none
  acmpyNeedMtr : Option String := none
  parking : Option String := none
deriving DecidableEq

/-- `TourItem` as consumed by `page.tsx`: the declared interface fields the
orchestration reads, plus the inline pet fields (`chkpet`, `chkpetsize`,
`chkpetplace`, `chkpetfee`, `petinfo`) that the resolution chain probes on the
runtime listing object. -/
structure TourItem where
  contentid : String := ""
  contenttypeid : String := ""
  title : String := ""
  addr1 : String := ""
  areacode : String := ""
  mapx : String := ""
  mapy : String := ""
  modifiedtime : String := ""
  overview : Option String := none
  chkpet : Option String := none
  chkpetsize : Option String := none
  chkpetplace : Option String := none
  chkpetfee : Option String := none
  petinfo : Option String := none
deriving DecidableEq

/-- `TourWithPetInfo = TourItem & { petInfo?: PetTourInfo | null }`.
`petInfo = none` covers both an absent field and an explicit `null`, which the
filtering code treats identically (`item.petInfo` is only ever probed for
truthiness or passed to `isPetAllowed`/`isPetSizeMatch`). -/
structure TourWithPetInfo where
  toItem : TourItem
  petInfo : Option PetTourInfo := none
deriving DecidableEq

/-- `PaginationInfo` from `lib/types/tour.ts`. -/
structure PaginationInfo where
  pageNo : ℕ := 1
  numOfRows : ℕ := 20
  totalCount : ℕ := 0
  totalPages : ℕ := 0
deriving DecidableEq

/-- `TourListResponse`: items plus pagination. -/
structure TourListResponse where
  items : List TourItem := []
  pagination : PaginationInfo := {}
deriving DecidableEq

/-- `AreaCode` from `lib/types/tour.ts` (the `rnum` field is never read by the
orchestration and is omitted). -/
structure AreaCodeInfo where
  code : String := ""
  name : String := ""
deriving DecidableEq

/-! ## Pet-accommodation heuristic (`lib/utils/pet-filter.ts`, current version)

The keyword lists and decision procedure below are the current
`pet-filter.ts` (the version with the extended keyword lists and the
`acmpyTypeCd` priority check).
-/

/-- `type PetSize = 'small' | 'medium' | 'large'` -/
inductive PetSize where
  | small
  | medium
  | large
deriving DecidableEq

/-- `PET_SIZE_KEYWORDS` -/
def PET_SIZE_KEYWORDS : PetSize → List String
  | .small => ["소형", "소형견"]
  | .medium => ["중형", "중형견"]
  | .large => ["대형", "대형견"]

/-- `DISALLOW_KEYWORDS` (current version). -/
def DISALLOW_KEYWORDS : List String :=
  ["불가", "금지", "입장불가", "입장 불가", "동반불가", "동반 불가",
   "출입불가", "출입 불가", "반입불가", "반입 불가", "불가능",
   "안됨", "안 됨", "안됩니다", "없습니다"]

/-- `ALLOW_KEYWORDS` (current version). -/
def ALLOW_KEYWORDS : List String :=
  ["동반가능", "동반 가능", "입장가능", "입장 가능", "출입가능", "출입 가능",
   "반입가능", "반입 가능", "전 견종", "소형견", "중형견", "대형견",
   "소형 견", "중형 견", "대형 견", "전견종",
   "목줄", "리드줄", "입마개", "켄넬", "이동장", "배변봉투",
   "가능함", "허용됨", "일부구역", "일부 구역", "전 구역", "전구역"]

/-- `keywords.some((keyword) => text.toLowerCase().includes(keyword.toLowerCase()))`,
the keyword test both keyword sets are applied with. -/
def anyKeywordIn (keywords : List String) (text : String) : Bool :=
  keywords.any (fun k => containsStr (lowerStr text) (lowerStr k))

/-- The merged text `isPetAllowed` builds: legacy fields first, then the
`detailPetTour2` fields, skipping `undefined` and empty entries, joined with
single spaces. -/
def mergedPetText (p : PetTourInfo) : String :=
  jsJoinSp (truthyFields
    [p.chkpetleash, p.chkpetsize, p.chkpetplace, p.chkpetfee, p.petinfo,
     p.acmpyTypeCd, p.etcAcmpyInfo, p.acmpyPsblCpam, p.acmpyNeedMtr])

/-- The `acmpyTypeCd` priority check inside `isPetAllowed`: when the field is
populated, a disallow keyword in it decides `false`, else an allow keyword in
it decides `true`, else the check is inconclusive (`none`) and evaluation
falls through to the merged-text scan. -/
def acmpyTypeCdVerdict (p : PetTourInfo) : Option Bool :=
  if optTruthyTrim p.acmpyTypeCd then
    let typeCd := lowerStr (p.acmpyTypeCd.getD "")
    if DISALLOW_KEYWORDS.any (fun k => containsStr typeCd (lowerStr k)) then
      some false
    else if ALLOW_KEYWORDS.any (fun k => containsStr typeCd (lowerStr k)) then
      some true
    else
      none
  else
    none

/-- `isPetAllowed(petInfo?: PetTourInfo | null): boolean` (current version):
no record → `false`; no populated field → `false`; then the `acmpyTypeCd`
priority check; then the merged-text scan (blank → `false`, disallow keyword →
`false`, else the allow-keyword test). -/
def isPetAllowed (petInfo : Option PetTourInfo) : Bool :=
  match petInfo with
  | none => false
  | some p =>
    let hasApiData :=
      optTruthyTrim p.acmpyTypeCd || optTruthyTrim p.etcAcmpyInfo ||
        optTruthyTrim p.acmpyPsblCpam || optTruthyTrim p.acmpyNeedMtr
    let hasLegacyData :=
      optTruthyTrim p.chkpetleash || optTruthyTrim p.chkpetsize ||
        optTruthyTrim p.chkpetplace || optTruthyTrim p.chkpetfee ||
        optTruthyTrim p.petinfo
    if !hasApiData && !hasLegacyData then
      false
    else
      match acmpyTypeCdVerdict p with
      | some b => b
      | none =>
        let mergedText := mergedPetText p
        if isBlank mergedText then
          false
        else if anyKeywordIn DISALLOW_KEYWORDS mergedText then
          false
        else
          anyKeywordIn ALLOW_KEYWORDS mergedText

/-- `matchesPetSize(text, petSizes)`: an empty requested-size set accepts
anything; absent or empty text matches nothing; otherwise any keyword of any
requested size category must occur in the lowercased text. -/
def matchesPetSize (text : Option String) (petSizes : List PetSize) : Bool :=
  if petSizes.isEmpty then
    true
  else
    match text with
    | none => false
    | some t =>
      if t == "" then
        false
      else
        petSizes.any (fun size =>
          (PET_SIZE_KEYWORDS size).any (fun k => containsStr (lowerStr t) k))

/-- `isPetSizeMatch(petInfo, petSizes)`. -/
def isPetSizeMatch (petInfo : Option PetTourInfo) (petSizes : List PetSize) : Bool :=
  if petSizes.isEmpty then
    true
  else
    matchesPetSize (petInfo.bind (·.chkpetsize)) petSizes

/-- `filterToursByPet(items, { petAllowed, petSizes })` (current version; the
debug logging does not affect the returned value and is not modelled). -/
def filterToursByPet (items : List TourWithPetInfo)
    (petAllowed : Bool) (petSizes : List PetSize) : List TourWithPetInfo :=
  if !petAllowed && petSizes.isEmpty then
    items
  else
    items.filter (fun item =>
      (if petAllowed then isPetAllowed item.petInfo else true) &&
        isPetSizeMatch item.petInfo petSizes)

/-! ## Spec-side reference procedure for the pet heuristic (claim C2)

The claim describes `isPetAllowed` as equal to a flat ordered rule list over
the merged text.  The definition below is written from the claim's words, to
be compared with the source-translated `isPetAllowed` above.
-/

/-- The claim's reference decision procedure: record absent or merged text
empty → not allowed; any disallow keyword anywhere in the merged text
(case-insensitive substring) → not allowed, regardless of allow keywords;
else any allow keyword → allowed; else not allowed. -/
def isPetAllowedSpecC2 (petInfo : Option PetTourInfo) : Bool :=
  match petInfo with
  | none => false
  | some p =>
    let merged := mergedPetText p
    if isBlank merged then
      false
    else if anyKeywordIn DISALLOW_KEYWORDS merged then
      false
    else if anyKeywordIn ALLOW_KEYWORDS merged then
      true
    else
      false

/-- The reference procedure amended as the code forces: before the merged-text
scan, a populated accompaniment-type field (`acmpyTypeCd`) is consulted on its
own — a disallow keyword in that field alone decides not-allowed, else an
allow keyword in that field alone decides allowed; only when that field is
absent or inconclusive does the flat merged-text rule list apply. -/
def isPetAllowedSpecC2Amended (petInfo : Option PetTourInfo) : Bool :=
  match petInfo with
  | none => false
  | some p =>
    match acmpyTypeCdVerdict p with
    | some b => b
    | none =>
      let merged := mergedPetText p
      if isBlank merged then
        false
      else if anyKeywordIn DISALLOW_KEYWORDS merged then
        false
      else if anyKeywordIn ALLOW_KEYWORDS merged then
        true
      else
        false

/-! ## Per-item pet-info resolution (`app/page.tsx`, lines 761–845) -/

/-- `petSearchKeywords` from `page.tsx`. -/
def petSearchKeywords : List String :=
  ["반려동물", "반려견", "반려", "애완동물", "애견", "펫", "pet"]

/-- `keyword?.replace(/\s+/g, '').toLowerCase() || ''`. -/
def normalizeKeyword (keyword : Option String) : String :=
  match keyword with
  | none => ""
  | some s => lowerStr ⟨s.data.filter (fun c => !c.isWhitespace)⟩

/-- `isPetSearchMode`: a present, non-empty keyword that contains one of the
pet search keywords after whitespace removal and lowercasing. -/
def isPetSearchMode (keyword : Option String) : Bool :=
  match keyword with
  | none => false
  | some s =>
    s ≠ "" && petSearchKeywords.any (fun k =>
      containsStr (normalizeKeyword (some s))
        ⟨(lowerStr k).data.filter (fun c => !c.isWhitespace)⟩)

/-- The synthetic record items receive in pet-search / auto-pet-search mode:
`{ contentid, contenttypeid, petinfo: '(검색 결과) ' + title, acmpyTypeCd:
'동반가능', parking: undefined }`. -/
def searchModePetRecord (item : TourItem) : PetTourInfo :=
  { contentid := item.contentid
    contenttypeid := item.contenttypeid
    petinfo := some ("(검색 결과) " ++ item.title)
    acmpyTypeCd := some "동반가능" }

/-- `hasInlinePetData`: the listing response already carries a populated
inline pet field. -/
def hasInlinePetData (item : TourItem) : Bool :=
  optTruthyTrim item.chkpet || optTruthyTrim item.chkpetsize ||
    optTruthyTrim item.chkpetplace || optTruthyTrim item.chkpetfee ||
    optTruthyTrim item.petinfo

/-- The record assembled from the inline pet fields (step 1 of the chain). -/
def inlinePetRecord (item : TourItem) : PetTourInfo :=
  { contentid := item.contentid
    contenttypeid := item.contenttypeid
    chkpetleash := item.chkpet
    chkpetsize := item.chkpetsize
    chkpetplace := item.chkpetplace
    chkpetfee := item.chkpetfee
    petinfo := item.petinfo }

/-- `[item.title, item.overview || ''].join(' ')`. -/
def itemScanText (item : TourItem) : String :=
  jsJoinSp [item.title, item.overview.getD ""]

/-- The fallback text-scan keyword lists from `page.tsx` (distinct from the
`pet-filter.ts` lists). -/
def scanPetKeywords : List String :=
  ["반려동물", "반려견", "애완동물", "애견", "펫", "pet"]
def scanAllowKeywords : List String :=
  ["동반", "가능", "입장", "출입", "허용"]
def scanDisallowKeywords : List String :=
  ["불가", "금지", "안됨", "없습니다"]

/-- Step 3 of the chain: the title/overview scan succeeds when a pet keyword
and an allow keyword occur and no disallow keyword occurs. -/
def textScanSucceeds (item : TourItem) : Bool :=
  anyKeywordIn scanPetKeywords (itemScanText item) &&
    anyKeywordIn scanAllowKeywords (itemScanText item) &&
    !(anyKeywordIn scanDisallowKeywords (itemScanText item))

/-- The synthetic record produced by a successful text scan:
`{ contentid, contenttypeid, petinfo: '(텍스트 기반 추정) ' +
textToCheck.substring(0, 100), acmpyTypeCd: '동반가능', parking: undefined }`. -/
def textScanPetRecord (item : TourItem) : PetTourInfo :=
  { contentid := item.contentid
    contenttypeid := item.contenttypeid
    petinfo := some ("(텍스트 기반 추정) " ++ take100 (itemScanText item))
    acmpyTypeCd := some "동반가능" }

/-- Outcome of the per-item `getDetailPetTour` call, supplied as an oracle:
`none` models the call throwing (caught and ignored), `some none` models a
successful call returning `null` (no record upstream), `some (some p)` a
successful call returning a record. -/
abbrev PetEndpointOutcome := Option (Option PetTourInfo)

/-- The per-item resolution from `page.tsx` (the `tourData.items.map` body):
in pet-search or auto-pet-search mode every item gets the synthetic search
record; otherwise inline fields, then the `detailPetTour2` endpoint, then the
title/overview text scan, and finally `petInfo: null`. -/
def resolvePetInfo (petSearchMode autoPetSearch : Bool)
    (endpoint : PetEndpointOutcome) (item : TourItem) : TourWithPetInfo :=
  if petSearchMode || autoPetSearch then
    { toItem := item, petInfo := some (searchModePetRecord item) }
  else if hasInlinePetData item then
    { toItem := item, petInfo := some (inlinePetRecord item) }
  else
    match endpoint with
    | some (some p) => { toItem := item, petInfo := some p }
    | _ =>
      if textScanSucceeds item then
        { toItem := item, petInfo := some (textScanPetRecord item) }
      else
        { toItem := item, petInfo := none }

/-! ### Spec-side resolver strategy chain (claim C5)

The spec describes the resolution as an ordered list of resolver strategies,
each returning an optional result, the orchestrator taking the first
non-null result.  These definitions are written from the spec's words.
-/

/-- Resolver (a): trust inline pet fields if the listing response already
carries them. -/
def resolverInline (item : TourItem) : Option PetTourInfo :=
  if hasInlinePetData item then some (inlinePetRecord item) else none

/-- Resolver (b): the per-item pet-info endpoint (null and failure are both
"no result"). -/
def resolverEndpoint (endpoint : PetEndpointOutcome) : Option PetTourInfo :=
  match endpoint with
  | some (some p) => some p
  | _ => none

/-- Resolver (c): the last-resort title/overview text scan. -/
def resolverTextScan (item : TourItem) : Option PetTourInfo :=
  if textScanSucceeds item then some (textScanPetRecord item) else none

/-- The first non-`none` result of an ordered list of resolver outputs. -/
def firstSome {α : Type} : List (Option α) → Option α
  | [] => none
  | some a :: _ => some a
  | none :: rest => firstSome rest

/-! ## Multi-region batch merge (`app/page.tsx`, lines 652–727) -/

/-- The empty fallback result substituted when one region's
`getAreaBasedList` call fails. -/
def emptyAreaResult : TourListResponse :=
  { items := []
    pagination := { pageNo := 1, numOfRows := 20, totalCount := 0, totalPages := 0 } }

/-- One region's fetch with the `.catch` fallback applied (`fetch a = none`
models the call failing after retries). -/
def fetchOrEmpty (fetch : AreaCodeInfo → Option TourListResponse)
    (a : AreaCodeInfo) : TourListResponse :=
  (fetch a).getD emptyAreaResult

/-- `AREA_BATCH_SIZE = 3`, `AREA_BATCH_DELAY = 2000`. -/
def AREA_BATCH_SIZE : ℕ := 3
def AREA_BATCH_DELAY : ℕ := 2000

/-- The batch loop: take `AREA_BATCH_SIZE = 3` regions at a time, fetch them
together (`Promise.all` keeps order), append the batch's results, and sleep
`AREA_BATCH_DELAY` once per batch after which regions remain
(`if (i + AREA_BATCH_SIZE < areaCodes.length)`).  Returns the accumulated
per-region results, the batches issued, and the number of inter-batch delays
slept. -/
def areaBatchLoop (fetch : AreaCodeInfo → Option TourListResponse) :
    List AreaCodeInfo →
    List TourListResponse × List (List AreaCodeInfo) × ℕ
  | [] => ([], [], 0)
  | [a] => ([fetchOrEmpty fetch a], [[a]], 0)
  | [a, b] => ([fetchOrEmpty fetch a, fetchOrEmpty fetch b], [[a, b]], 0)
  | a :: b :: c :: rest =>
    let batchResults := [a, b, c].map (fetchOrEmpty fetch)
    let next := areaBatchLoop fetch rest
    (batchResults ++ next.1, [a, b, c] :: next.2.1,
      next.2.2 + (if rest.isEmpty then 0 else 1))

/-- The stable-insertion model of `Array.prototype.sort(cmp)` for a JS
comparator expressed as `le a b ↔ cmp(a, b) <= 0`: JS sort is stable, so an
element is placed before the first later-merged element it compares
less-than-or-equal to. -/
def jsStableInsert {α : Type} (le : α → α → Bool) (a : α) : List α → List α
  | [] => [a]
  | b :: l => if le a b then a :: b :: l else b :: jsStableInsert le a l

/-- Stable sort built on `jsStableInsert`: elements are inserted from the
last towards the first, so earlier elements end up before later elements
they tie with. -/
def jsStableSort {α : Type} (le : α → α → Bool) : List α → List α
  | [] => []
  | a :: rest => jsStableInsert le a (jsStableSort le rest)

/-- `type SortBy = 'modifiedtime' | 'title'` from `lib/types/filter.ts`. -/
inductive SortBy where
  | modifiedtime
  | title
deriving DecidableEq

/-- The comparison the title branch sorts with, given a model `koCompare` of
`String.prototype.localeCompare(·, 'ko')`: `a` may precede `b` when
`a.title.localeCompare(b.title, 'ko') <= 0`. -/
def titleLe (koCompare : String → String → ℤ) (a b : TourItem) : Bool :=
  koCompare a.title b.title ≤ 0

/-- The comparison the modifiedtime branch sorts with:
`(a, b) => parseInt(b.modifiedtime || '0') - parseInt(a.modifiedtime || '0')`,
so `a` may precede `b` when that difference is `<= 0`, i.e. descending by
parsed timestamp. -/
def modifiedLe (a b : TourItem) : Bool :=
  parseIntD b.modifiedtime ≤ parseIntD a.modifiedtime

/-- The client-side re-sort of the merged list (`let sortedItems = ...`). -/
def sortMergedItems (koCompare : String → String → ℤ) (sortBy : SortBy)
    (allItems : List TourItem) : List TourItem :=
  match sortBy with
  | .title => jsStableSort (titleLe koCompare) allItems
  | .modifiedtime => jsStableSort modifiedLe allItems

/-- The "all regions" branch of `Home` (lines 652–727): run the batch loop
over every known region, merge all items, re-sort client-side, slice the
requested page window (`slice((pageNo-1)*20, (pageNo-1)*20 + 20)`; the model
uses truncated subtraction, so it covers the `pageNo >= 1` values the page
links produce), and recompute pagination from the merged size.  Also returns
the batch schedule and delay count for inspection. -/
def multiRegionTourData (fetch : AreaCodeInfo → Option TourListResponse)
    (koCompare : String → String → ℤ) (areaCodes : List AreaCodeInfo)
    (sortBy : SortBy) (pageNo : ℕ) :
    TourListResponse × List (List AreaCodeInfo) × ℕ :=
  let loopOut := areaBatchLoop fetch areaCodes
  let allItems := (loopOut.1.map (·.items)).flatten
  let totalCount := allItems.length
  let sortedItems := sortMergedItems koCompare sortBy allItems
  let startIndex := (pageNo - 1) * 20
  let paginatedItems := (sortedItems.drop startIndex).take 20
  ({ items := paginatedItems
     pagination :=
       { pageNo := pageNo
         numOfRows := 20
         totalCount := totalCount
         totalPages := jsCeilDiv totalCount 20 } },
   loopOut.2.1, loopOut.2.2)

/-! ## Post-filter pagination (`app/page.tsx`, lines 741–866) -/

/-- The pet-filter application tail of `Home`: filter the resolved items and
rebuild `tourData` with `pageNo: 1`, `totalCount` from the filtered set, and
`totalPages: Math.max(1, Math.ceil(filteredItems.length / pageSize))` where
`pageSize = tourData.pagination.numOfRows || 20`. -/
def applyPetFilterToPage (orig : PaginationInfo)
    (itemsWithPetInfo : List TourWithPetInfo)
    (petAllowed : Bool) (petSizes : List PetSize) :
    List TourWithPetInfo × PaginationInfo :=
  let pageSize := if orig.numOfRows == 0 then 20 else orig.numOfRows
  let filteredItems := filterToursByPet itemsWithPetInfo petAllowed petSizes
  (filteredItems,
   { pageNo := 1
     numOfRows := orig.numOfRows
     totalCount := filteredItems.length
     totalPages := max 1 (jsCeilDiv filteredItems.length pageSize) })

/-! ## Statistics (`lib/api/stats-api.ts`) -/

/-- One region-level or type-level aggregate entry.  `getRegionStatsInternal`
and `getTypeStatsInternal` build entries shaped `{ areaCode, name, count }`
resp. `{ contentTypeId, typeName, count, percentage: 0 }` and then attach the
percentage with the identical formula, so one entry type serves both axes
(`code`/`name` standing for `areaCode`/`name` resp.
`contentTypeId`/`typeName`). -/
structure StatEntry where
  code : String := ""
  name : String := ""
  count : ℕ := 0
  percentage : ℚ := 0
deriving DecidableEq

/-- The percentage-attachment step shared by `getRegionStatsInternal` (lines
845–851) and `getTypeStatsInternal` (lines 939–945):
`totalCount = stats.reduce((sum, stat) => sum + stat.count, 0)` and
`percentage = totalCount > 0 ? (stat.count / totalCount) * 100 : 0`. -/
def attachPercentages (stats : List StatEntry) : List StatEntry :=
  let totalCount := (stats.map (·.count)).sum
  stats.map (fun stat =>
    { stat with
      percentage :=
        if 0 < totalCount then (stat.count : ℚ) / (totalCount : ℚ) * 100
        else 0 })

/-- A ranked top-3 entry (`TopRegion` / `TopType`). -/
structure TopEntry where
  code : String := ""
  name : String := ""
  count : ℕ := 0
  rank : ℕ := 0
deriving DecidableEq

/-- `.map((entry, index) => ({ ..., rank: index + 1 }))`, with `index`
starting from `i`. -/
def attachRanks (i : ℕ) : List StatEntry → List TopEntry
  | [] => []
  | s :: rest =>
    { code := s.code, name := s.name, count := s.count, rank := i + 1 } ::
      attachRanks (i + 1) rest

/-- The top-3 extraction of `getStatsSummaryInternal` (applied to each axis):
`stats.sort((a, b) => b.count - a.count).slice(0, 3)` followed by 1-based
rank attachment.  The comparator `b.count - a.count` is `<= 0` exactly when
`b.count <= a.count`, and the JS sort is stable. -/
def topStats (stats : List StatEntry) : List TopEntry :=
  attachRanks 0 ((jsStableSort (fun a b => b.count ≤ a.count) stats).take 3)

/-- The C2 counterexample record: accompaniment-type field "동반가능"
(companion allowed), free-text field "입장불가" (entry prohibited). -/
def cexPetInfoC2 : PetTourInfo :=
  { contentid := "100", contenttypeid := "12",
    acmpyTypeCd := some "동반가능", petinfo := some "입장불가" }

/-- Example item for the size-filter claims: small-dog-friendly. -/
def witTourSmall : TourWithPetInfo :=
  { toItem := { contentid := "200", contenttypeid := "12", title := "A" }
    petInfo := some
      { contentid := "200", contenttypeid := "12",
        chkpetleash := some "반려동물 동반 가능", chkpetsize := some "소형견 가능" } }

/-- Example item for the size-filter claims: large dogs only. -/
def witTourLarge : TourWithPetInfo :=
  { toItem := { contentid := "300", contenttypeid := "12", title := "B" }
    petInfo := some
      { contentid := "300", contenttypeid := "12",
        chkpetleash := some "반려동물 동반 가능", chkpetsize := some "대형견" } }

/-- C5 counterexample item: the listing response carries an inline pet field
saying accompaniment is prohibited. -/
def cexItemC5 : TourItem :=
  { contentid := "400", contenttypeid := "12", title := "C",
    chkpet := some "동반 불가" }

/-- C5 witness item: no inline pet data, non-pet title. -/
def witItemC5 : TourItem :=
  { contentid := "500", contenttypeid := "12", title := "D" }

/-- C6 witness items (distinct last-modified timestamps). -/
def tourC6a : TourItem :=
  { contentid := "600", contenttypeid := "12", title := "가나",
    modifiedtime := "20240102000000" }

def tourC6b : TourItem :=
  { contentid := "601", contenttypeid := "12", title := "다라",
    modifiedtime := "20240105000000" }

/-- C6 witness fetch oracle: region "1" answers with two items, every other
region's call fails (exercising the catch-to-empty fallback). -/
def fetchC6 : AreaCodeInfo → Option TourListResponse := fun a =>
  if a.code == "1" then
    some { items := [tourC6a, tourC6b],
           pagination := { pageNo := 1, numOfRows := 20,
                           totalCount := 2, totalPages := 1 } }
  else
    none

/-- C6 witness region list: four regions, so two batches (3 + 1). -/
def areasC6 : List AreaCodeInfo :=
  [{ code := "1", name := "서울" }, { code := "2", name := "인천" },
   { code := "3", name := "대전" }, { code := "4", name := "대구" }]

/-- Trivial collator model for witnesses that sort by modifiedtime. -/
def koCompareZero : String → String → ℤ := fun _ _ => 0

/-- C7 witness stats: counts 1 and 3 (total 4). -/
def statsC7 : List StatEntry :=
  [{ code := "1", name := "서울", count := 1 },
   { code := "6", name := "부산", count := 3 }]

/-- C8 example stats, counts [5, 50, 20, 5] in input order. -/
def statsC8 : List StatEntry :=
  [{ code := "r1", name := "A", count := 5 },
   { code := "r2", name := "B", count := 50 },
   { code := "r3", name := "C", count := 20 },
   { code := "r4", name := "D", count := 5 }]

/-! # Theorems -/

/-! ## Retry policy (claims C1, C4) -/

/-- Trace invariants of the `withRetry` loop: at least one call is made, at
most `remaining + 1` calls are made, and the backoff delays slept are exactly
`calculateBackoffDelay` of the successive attempt indices, one per
re-attempt. -/
theorem withRetryGo_calls_delays {α : Type} (fn : ℕ → Except JsError α) :
    ∀ (remaining attempt : ℕ),
      1 ≤ (withRetryGo fn attempt remaining).calls ∧
      (withRetryGo fn attempt remaining).calls ≤ remaining + 1 ∧
      (withRetryGo fn attempt remaining).delays =
        (List.range ((withRetryGo fn attempt remaining).calls - 1)).map
          (fun i => calculateBackoffDelay (attempt + i)) := by
  intro remaining
  induction remaining with
  | zero => intro attempt; simp [withRetryGo]
  | succ n ih =>
    intro attempt
    simp only [withRetryGo]
    cases h : fn attempt with
    | ok v => simp
    | error e =>
      by_cases hr : isRetryableError e
      · simp only [hr, if_true]
        obtain ⟨h1, h2, h3⟩ := ih (attempt + 1)
        refine ⟨by omega, by omega, ?_⟩
        obtain ⟨k, hk⟩ : ∃ k, (withRetryGo fn (attempt + 1) n).calls = k + 1 :=
          ⟨(withRetryGo fn (attempt + 1) n).calls - 1, by omega⟩
        rw [h3, hk]
        simp only [Nat.add_sub_cancel, List.range_succ_eq_map, List.map_cons,
          List.map_map, Nat.add_zero]
        congr 1
        apply List.map_congr_left
        intro i _
        simp only [Function.comp_apply]
        congr 1
        omega
      · simp [hr]

/-- Claim C1 (code bug): the retry classifier `isRetryableError` does treat a
4xx `TourApiError` and a parse `SyntaxError` as non-retryable — but every
operation's `catch` block (`getAreaBasedList` among them) re-throws the
failure as `new TourApiError(message, undefined, ...)`, erasing the status
code, so the error `withRetry` actually classifies is a status-code-less
`TourApiError`, which is retryable.  Concretely, an operation that keeps
failing with HTTP 404 is retried with the full backoff schedule (4 calls,
delays 1000/2000/4000 ms) instead of failing immediately. -/
theorem wrappedClientErrors_are_retried :
    isRetryableError (JsError.tourApi (some 404)) = false ∧
    isRetryableError JsError.syntaxError = false ∧
    wrapCaughtError (JsError.tourApi (some 404)) = JsError.tourApi none ∧
    isRetryableError (wrapCaughtError (JsError.tourApi (some 404))) = true ∧
    isRetryableError (wrapCaughtError JsError.syntaxError) = true ∧
    (withRetry (wrappedOperation
      (fun _ => (Except.error (JsError.tourApi (some 404)) :
        Except JsError Unit)))).calls = 4 ∧
    (withRetry (wrappedOperation
      (fun _ => (Except.error (JsError.tourApi (some 404)) :
        Except JsError Unit)))).delays = [1000, 2000, 4000] := by
  refine ⟨rfl, rfl, rfl, rfl, rfl, ?_, ?_⟩ <;> decide

/-- Claim C4 (counterexample): the retry policy does not stop after 3 call
attempts — an operation that keeps failing with a network error is called 4
times (`for (attempt = 0; attempt <= retries; attempt++)` with
`maxRetries: 3` runs the body four times). -/
theorem withRetry_exceeds_three_attempts :
    (withRetry (fun _ => (Except.error JsError.typeErrorFetch :
      Except JsError Unit))).calls = 4 ∧
    ¬ ((withRetry (fun _ => (Except.error JsError.typeErrorFetch :
      Except JsError Unit))).calls ≤ 3) := by
  constructor <;> decide

/-- Claim C4 (amended): every operation run through the retry wrapper is
called at most 4 times in total (one initial attempt plus up to
`maxRetries = 3` re-attempts), and the delays slept before the successive
re-attempts follow exponential backoff starting at 1000 ms, doubling each
time, capped at 4000 ms — i.e. they form a prefix of `[1000, 2000, 4000]`. -/
theorem withRetry_attemptBound_and_backoff {α : Type}
    (fn : ℕ → Except JsError α) :
    (withRetry fn).calls ≤ 4 ∧
    (withRetry fn).delays =
      [1000, 2000, 4000].take ((withRetry fn).calls - 1) := by
  obtain ⟨h1, h2, h3⟩ := withRetryGo_calls_delays fn 3 0
  unfold withRetry RETRY_CONFIG_maxRetries
  refine ⟨by omega, ?_⟩
  rw [h3]
  set k := (withRetryGo fn 0 3).calls - 1 with hkdef
  have hk3 : k ≤ 3 := by omega
  interval_cases k <;> decide

/-- Witness for C4's amended theorem at a concrete always-failing operation:
the call count stays within 4 and the delays are the full backoff prefix. -/
theorem withRetry_attemptBound_and_backoff_witness :
    (withRetry (fun _ => (Except.error JsError.typeErrorFetch :
      Except JsError Unit))).calls ≤ 4 ∧
    (withRetry (fun _ => (Except.error JsError.typeErrorFetch :
      Except JsError Unit))).delays =
      [1000, 2000, 4000].take ((withRetry (fun _ =>
        (Except.error JsError.typeErrorFetch : Except JsError Unit))).calls - 1) :=
  withRetry_attemptBound_and_backoff
    (fun _ => (Except.error JsError.typeErrorFetch : Except JsError Unit))

/-! ## Coordinate round-trip (claim C3) -/

/-- Evaluation of `parseFloatQ` on a digit string with a known value. -/
theorem parseFloatQ_digits (s : String) (n : ℕ)
    (h1 : s.data ≠ [] ∧ s.data.all Char.isDigit) (h2 : digitsToNat s.data = n) :
    parseFloatQ s = some (n : ℚ) := by
  unfold parseFloatQ
  rw [if_pos h1, h2]
  norm_num

/-- `convertKATECToWGS84` divides each parsed axis by 10,000,000. -/
theorem convertKATEC_eval (sx sy : String) (x y : ℚ)
    (hx : parseFloatQ sx = some x) (hy : parseFloatQ sy = some y) :
    convertKATECToWGS84 sx sy = some (x / 10000000, y / 10000000) := by
  unfold convertKATECToWGS84
  rw [hx, hy]

/-- The bounding-box validation accepts a parseable pair exactly when the
converted coordinates lie in the 124–132°E, 33–39°N box. -/
theorem isDisplayable_iff_inBox (sx sy : String) (x y : ℚ)
    (hx : parseFloatQ sx = some x) (hy : parseFloatQ sy = some y) :
    (isDisplayableCoordinate sx sy = true ↔
      (124 ≤ x / 10000000 ∧ x / 10000000 ≤ 132 ∧
        33 ≤ y / 10000000 ∧ y / 10000000 ≤ 39)) := by
  unfold isDisplayableCoordinate
  rw [convertKATEC_eval sx sy x y hx hy]
  simp [isValidKoreanCoordinate, and_assoc]

/-- Claim C3 (counterexample): the claim's example pair does not behave as
stated — `mapx "126978000"` with `mapy "37566500"` converts (by the code's
division by 10,000,000) to longitude 12.6978, which is far below the 124°E
edge of the bounding box, so the pair is rejected, not accepted. -/
theorem coordClaimExample_rejected :
    convertKATECToWGS84 "126978000" "37566500" =
      some ((126978000 : ℚ) / 10000000, (37566500 : ℚ) / 10000000) ∧
    ((126978000 : ℚ) / 10000000 < 124) ∧
    isDisplayableCoordinate "126978000" "37566500" = false := by
  have hx : parseFloatQ "126978000" = some ((126978000 : ℕ) : ℚ) :=
    parseFloatQ_digits _ _ (by decide) rfl
  have hy : parseFloatQ "37566500" = some ((37566500 : ℕ) : ℚ) :=
    parseFloatQ_digits _ _ (by decide) rfl
  refine ⟨?_, by norm_num, ?_⟩
  · have := convertKATEC_eval _ _ _ _ hx hy
    rw [this]
    norm_num
  · have h := isDisplayable_iff_inBox _ _ _ _ hx hy
    have hfalse : ¬ (124 ≤ ((126978000 : ℕ) : ℚ) / 10000000 ∧
        ((126978000 : ℕ) : ℚ) / 10000000 ≤ 132 ∧
        33 ≤ ((37566500 : ℕ) : ℚ) / 10000000 ∧
        ((37566500 : ℕ) : ℚ) / 10000000 ≤ 39) := by
      push_cast
      norm_num
    rcases Bool.eq_false_or_eq_true
        (isDisplayableCoordinate "126978000" "37566500") with hb | hb
    · exact absurd (h.mp hb) hfalse
    · exact hb

/-- Claim C3 (amended): conversion divides each parsed axis by 10,000,000 and
the bounding-box validation accepts exactly the pairs whose converted
coordinates lie within 124–132°E and 33–39°N; the fixed-point pair for
≈126.978°E / ≈37.5665°N is `mapx "1269780000"`, `mapy "375665000"` (accepted),
while `mapx "126978000"` converts to 12.6978 (rejected) and `mapx "0"` is
rejected. -/
theorem convertKATEC_division_and_boundingBox (sx sy : String) (x y : ℚ)
    (hx : parseFloatQ sx = some x) (hy : parseFloatQ sy = some y) :
    convertKATECToWGS84 sx sy = some (x / 10000000, y / 10000000) ∧
    (isDisplayableCoordinate sx sy = true ↔
      (124 ≤ x / 10000000 ∧ x / 10000000 ≤ 132 ∧
        33 ≤ y / 10000000 ∧ y / 10000000 ≤ 39)) :=
  ⟨convertKATEC_eval sx sy x y hx hy, isDisplayable_iff_inBox sx sy x y hx hy⟩

/-- Witness for C3's amended theorem: the corrected fixed-point pair converts
to (126.978, 37.5665) and is accepted, while `mapx "0"` is rejected. -/
theorem convertKATEC_division_and_boundingBox_witness :
    convertKATECToWGS84 "1269780000" "375665000" =
      some (((1269780000 : ℕ) : ℚ) / 10000000, ((375665000 : ℕ) : ℚ) / 10000000) ∧
    isDisplayableCoordinate "1269780000" "375665000" = true ∧
    isDisplayableCoordinate "0" "375665000" = false := by
  have hx : parseFloatQ "1269780000" = some ((1269780000 : ℕ) : ℚ) :=
    parseFloatQ_digits _ _ (by decide) rfl
  have hy : parseFloatQ "375665000" = some ((375665000 : ℕ) : ℚ) :=
    parseFloatQ_digits _ _ (by decide) rfl
  have h := convertKATEC_division_and_boundingBox _ _ _ _ hx hy
  have hx0 : parseFloatQ "0" = some ((0 : ℕ) : ℚ) :=
    parseFloatQ_digits _ _ (by decide) rfl
  have h0 := convertKATEC_division_and_boundingBox _ _ _ _ hx0 hy
  refine ⟨h.1, h.2.mpr (by push_cast; norm_num), ?_⟩
  rcases Bool.eq_false_or_eq_true
      (isDisplayableCoordinate "0" "375665000") with hb | hb
  · exact absurd (h0.2.mp hb) (by push_cast; norm_num)
  · exact hb
/-! ## Pet-accommodation heuristic vs. the flat reference procedure (claim C2) -/

/-- `if c then true else false` collapses to `c` for booleans. -/
theorem if_bool_id (c : Bool) : (if c = true then true else false) = c := by
  cases c <;> simp

/-- Blankness distributes over string append. -/
theorem isBlank_append (a b : String) :
    isBlank (a ++ b) = (isBlank a && isBlank b) := by
  simp [isBlank, String.data_append, List.all_append]

/-- A space-join of blank strings is blank. -/
theorem isBlank_jsJoinSp (l : List String)
    (h : ∀ s ∈ l, isBlank s = true) : isBlank (jsJoinSp l) = true := by
  induction l with
  | nil => rfl
  | cons a rest ih =>
    cases rest with
    | nil => simpa [jsJoinSp] using h a (by simp)
    | cons b t =>
      have ha : isBlank a = true := h a (by simp)
      have hrest : isBlank (jsJoinSp (b :: t)) = true := by
        apply ih
        intro s hs
        exact h s (List.mem_cons_of_mem _ hs)
      have hsp : isBlank " " = true := by decide
      simp [jsJoinSp, isBlank_append, ha, hrest, hsp]

/-- Every surviving entry of `truthyFields` over all-blank optional fields is
blank. -/
theorem truthyFields_blank (fields : List (Option String))
    (h : ∀ o ∈ fields, optTruthyTrim o = false) :
    ∀ s ∈ truthyFields fields, isBlank s = true := by
  intro s hs
  simp only [truthyFields, List.mem_filter, List.mem_filterMap, id] at hs
  obtain ⟨⟨o, ho, rfl⟩, _⟩ := hs
  have := h (some s) ho
  simpa [optTruthyTrim] using this

/-- When no candidate field of the record is populated, the merged text is
blank. -/
theorem mergedPetText_blank (p : PetTourInfo)
    (h1 : optTruthyTrim p.chkpetleash = false)
    (h2 : optTruthyTrim p.chkpetsize = false)
    (h3 : optTruthyTrim p.chkpetplace = false)
    (h4 : optTruthyTrim p.chkpetfee = false)
    (h5 : optTruthyTrim p.petinfo = false)
    (h6 : optTruthyTrim p.acmpyTypeCd = false)
    (h7 : optTruthyTrim p.etcAcmpyInfo = false)
    (h8 : optTruthyTrim p.acmpyPsblCpam = false)
    (h9 : optTruthyTrim p.acmpyNeedMtr = false) :
    isBlank (mergedPetText p) = true := by
  apply isBlank_jsJoinSp
  apply truthyFields_blank
  intro o ho
  simp only [List.mem_cons, List.not_mem_nil, or_false] at ho
  rcases ho with rfl | rfl | rfl | rfl | rfl | rfl | rfl | rfl | rfl <;>
    assumption

/-- Claim C2 (counterexample): a record whose accompaniment-type field says
"동반가능" (companion allowed) but whose free-text field says "입장불가"
(entry prohibited) is judged allowed by `isPetAllowed` — the `acmpyTypeCd`
priority check returns `true` before the merged text is scanned — while the
claim's flat reference procedure judges it not allowed, because the disallow
keyword "불가" occurs in the merged text. -/
theorem isPetAllowed_ne_specProcedure :
    isPetAllowed (some cexPetInfoC2) = true ∧
    isPetAllowedSpecC2 (some cexPetInfoC2) = false ∧
    isPetAllowed (some cexPetInfoC2) ≠ isPetAllowedSpecC2 (some cexPetInfoC2) := by
  refine ⟨?_, ?_, ?_⟩ <;> decide

/-- Claim C2 (amended): `isPetAllowed` equals the reference procedure amended
with the accompaniment-type priority rule — absent record or no populated
field → not allowed; a populated `acmpyTypeCd` containing a disallow keyword →
not allowed, else containing an allow keyword → allowed; otherwise the flat
merged-text rule list (blank → not allowed, disallow keyword anywhere → not
allowed regardless of allow keywords, allow keyword → allowed, else not
allowed). -/
theorem isPetAllowed_eq_amendedSpec (petInfo : Option PetTourInfo) :
    isPetAllowed petInfo = isPetAllowedSpecC2Amended petInfo := by
  cases petInfo with
  | none => rfl
  | some p =>
    simp only [isPetAllowed, isPetAllowedSpecC2Amended]
    by_cases h :
        (!(optTruthyTrim p.acmpyTypeCd || optTruthyTrim p.etcAcmpyInfo ||
            optTruthyTrim p.acmpyPsblCpam || optTruthyTrim p.acmpyNeedMtr) &&
          !(optTruthyTrim p.chkpetleash || optTruthyTrim p.chkpetsize ||
            optTruthyTrim p.chkpetplace || optTruthyTrim p.chkpetfee ||
            optTruthyTrim p.petinfo)) = true
    · rw [if_pos h]
      simp only [Bool.and_eq_true, Bool.not_eq_true', Bool.or_eq_false_iff] at h
      obtain ⟨⟨⟨⟨h6, h7⟩, h8⟩, h9⟩, ⟨⟨⟨h1, h2⟩, h3⟩, h4⟩, h5⟩ := h
      have hverdict : acmpyTypeCdVerdict p = none := by
        unfold acmpyTypeCdVerdict
        rw [h6]
        simp
      have hblank : isBlank (mergedPetText p) = true :=
        mergedPetText_blank p h1 h2 h3 h4 h5 h6 h7 h8 h9
      rw [hverdict, hblank]
      simp
    · rw [if_neg h]
      simp only [if_bool_id]

/-- Witness for C2's amended theorem at the counterexample record: the code
and the amended reference procedure agree there (both judge it allowed). -/
theorem isPetAllowed_eq_amendedSpec_witness :
    isPetAllowed (some cexPetInfoC2) = isPetAllowedSpecC2Amended (some cexPetInfoC2) :=
  isPetAllowed_eq_amendedSpec (some cexPetInfoC2)

/-! ## Pet list filtering (claim C9) and post-filter pagination (claim C10) -/

/-- Claim C9: `filterToursByPet` applies the size predicate independently of
the `petAllowed` flag — with `petAllowed` false and a non-empty requested
size set the list is still filtered down to the size matches; the input is
returned unchanged exactly in the `petAllowed = false`, empty-size-set case;
and with `petAllowed` true both predicates are conjoined. -/
theorem filterToursByPet_characterization
    (items : List TourWithPetInfo) (petSizes : List PetSize) :
    (petSizes ≠ [] →
      filterToursByPet items false petSizes =
        items.filter (fun item => isPetSizeMatch item.petInfo petSizes)) ∧
    filterToursByPet items false [] = items ∧
    filterToursByPet items true petSizes =
      items.filter (fun item =>
        isPetAllowed item.petInfo && isPetSizeMatch item.petInfo petSizes) := by
  refine ⟨?_, ?_, ?_⟩
  · intro h
    simp [filterToursByPet, List.isEmpty_iff, h]
  · simp [filterToursByPet]
  · simp [filterToursByPet]

/-- Witness for C9 at a concrete list: with the pet-allowed flag off but
size filter `["small"]` requested, the large-dogs-only item is removed. -/
theorem filterToursByPet_characterization_witness :
    ([PetSize.small] : List PetSize) ≠ [] ∧
    filterToursByPet [witTourSmall, witTourLarge] false [PetSize.small] =
      [witTourSmall] := by
  refine ⟨by decide, ?_⟩
  have h := (filterToursByPet_characterization
    [witTourSmall, witTourLarge] [PetSize.small]).1 (by decide)
  rw [h]
  decide

/-- Claim C10: after the pet filter is applied on the list page, the rebuilt
pagination has `pageNo` fixed to 1 (whatever page was requested), `totalCount`
equal to the filtered list's length, and `totalPages` equal to
`max 1 (ceil(filteredCount / pageSize))` — hence at least 1 even for an empty
filtered set. -/
theorem postFilterPagination_spec (orig : PaginationInfo)
    (items : List TourWithPetInfo) (petAllowed : Bool)
    (petSizes : List PetSize) :
    (applyPetFilterToPage orig items petAllowed petSizes).2.pageNo = 1 ∧
    (applyPetFilterToPage orig items petAllowed petSizes).2.totalCount =
      (filterToursByPet items petAllowed petSizes).length ∧
    (applyPetFilterToPage orig items petAllowed petSizes).2.totalPages =
      max 1 (jsCeilDiv (filterToursByPet items petAllowed petSizes).length
        (if orig.numOfRows == 0 then 20 else orig.numOfRows)) ∧
    1 ≤ (applyPetFilterToPage orig items petAllowed petSizes).2.totalPages ∧
    (applyPetFilterToPage orig items petAllowed petSizes).1 =
      filterToursByPet items petAllowed petSizes := by
  refine ⟨rfl, rfl, rfl, ?_, rfl⟩
  exact le_max_left 1 _

/-! ## Per-item pet-info resolution order (claim C5) -/

/-- Claim C5 (counterexample): in auto-pet-search mode (pet filter active, no
user keyword) the resolution chain is bypassed — an item whose inline pet
field says "동반 불가" (accompaniment prohibited) is given the synthetic
"동반가능" search record instead of the inline record the (a)→(b)→(c) chain
would produce, flipping the filtering verdict from not-allowed to allowed. -/
theorem resolvePetInfo_bypasses_chain_in_searchMode :
    (resolvePetInfo false true (some none) cexItemC5).petInfo =
      some (searchModePetRecord cexItemC5) ∧
    firstSome [resolverInline cexItemC5, resolverEndpoint (some none),
      resolverTextScan cexItemC5] = some (inlinePetRecord cexItemC5) ∧
    (resolvePetInfo false true (some none) cexItemC5).petInfo ≠
      firstSome [resolverInline cexItemC5, resolverEndpoint (some none),
        resolverTextScan cexItemC5] ∧
    isPetAllowed (resolvePetInfo false true (some none) cexItemC5).petInfo = true ∧
    isPetAllowed (firstSome [resolverInline cexItemC5,
      resolverEndpoint (some none), resolverTextScan cexItemC5]) = false := by
  refine ⟨?_, ?_, ?_, ?_, ?_⟩ <;> decide

/-- Claim C5 (amended): outside pet-search and auto-pet-search modes, the
per-item resolution is exactly the ordered resolver chain — inline fields,
then the pet-info endpoint, then the text scan — with the first non-null
resolver's record used and the item itself passed through unchanged. -/
theorem resolvePetInfo_follows_resolver_chain
    (petSearchMode autoPetSearch : Bool) (endpoint : PetEndpointOutcome)
    (item : TourItem) (h : (petSearchMode || autoPetSearch) = false) :
    (resolvePetInfo petSearchMode autoPetSearch endpoint item).toItem = item ∧
    (resolvePetInfo petSearchMode autoPetSearch endpoint item).petInfo =
      firstSome [resolverInline item, resolverEndpoint endpoint,
        resolverTextScan item] := by
  obtain ⟨hm, ha⟩ := Bool.or_eq_false_iff.mp h
  subst hm
  subst ha
  by_cases hi : hasInlinePetData item = true
  · simp [resolvePetInfo, resolverInline, hi, firstSome]
  · rw [Bool.not_eq_true] at hi
    cases endpoint with
    | none =>
      by_cases ht : textScanSucceeds item = true
      · simp [resolvePetInfo, resolverInline, resolverEndpoint,
          resolverTextScan, hi, ht, firstSome]
      · rw [Bool.not_eq_true] at ht
        simp [resolvePetInfo, resolverInline, resolverEndpoint,
          resolverTextScan, hi, ht, firstSome]
    | some inner =>
      cases inner with
      | none =>
        by_cases ht : textScanSucceeds item = true
        · simp [resolvePetInfo, resolverInline, resolverEndpoint,
            resolverTextScan, hi, ht, firstSome]
        · rw [Bool.not_eq_true] at ht
          simp [resolvePetInfo, resolverInline, resolverEndpoint,
            resolverTextScan, hi, ht, firstSome]
      | some p =>
        simp [resolvePetInfo, resolverInline, resolverEndpoint, hi, firstSome]

/-- Witness for C5's amended theorem: with no pet-search bias, an item without
inline data takes the endpoint's record — the second resolver in the chain. -/
theorem resolvePetInfo_follows_resolver_chain_witness :
    ((false : Bool) || false) = false ∧
    (resolvePetInfo false false (some (some cexPetInfoC2)) witItemC5).petInfo =
      firstSome [resolverInline witItemC5,
        resolverEndpoint (some (some cexPetInfoC2)),
        resolverTextScan witItemC5] ∧
    (resolvePetInfo false false (some (some cexPetInfoC2)) witItemC5).petInfo =
      some cexPetInfoC2 :=
  ⟨by decide,
   (resolvePetInfo_follows_resolver_chain false false
     (some (some cexPetInfoC2)) witItemC5 (by decide)).2,
   by decide⟩

/-! ## Multi-region batch merge (claim C6) -/

/-- Invariants of the batch loop: the per-region results are exactly the
region list mapped through the (fallback-guarded) fetch, the batches cover
the region list in order, every batch is non-empty with at most 3 regions,
and for a non-empty region list the number of inter-batch delays is one less
than the number of batches. -/
theorem areaBatchLoop_spec (fetch : AreaCodeInfo → Option TourListResponse) :
    ∀ (n : ℕ) (areas : List AreaCodeInfo), areas.length ≤ n →
      (areaBatchLoop fetch areas).1 = areas.map (fetchOrEmpty fetch) ∧
      (areaBatchLoop fetch areas).2.1.flatten = areas ∧
      (∀ b ∈ (areaBatchLoop fetch areas).2.1,
        b ≠ [] ∧ b.length ≤ AREA_BATCH_SIZE) ∧
      (areas ≠ [] →
        (areaBatchLoop fetch areas).2.2 + 1 =
          (areaBatchLoop fetch areas).2.1.length) := by
  intro n
  induction n with
  | zero =>
    intro areas h
    have : areas = [] := List.length_eq_zero.mp (Nat.le_zero.mp h)
    subst this
    simp [areaBatchLoop]
  | succ n ih =>
    intro areas h
    match areas with
    | [] => simp [areaBatchLoop]
    | [a] => simp [areaBatchLoop, AREA_BATCH_SIZE]
    | [a, b] => simp [areaBatchLoop, AREA_BATCH_SIZE]
    | a :: b :: c :: rest =>
      have hlen : rest.length ≤ n := by
        simp only [List.length_cons] at h
        omega
      obtain ⟨r1, r2, r3, r4⟩ := ih rest hlen
      by_cases hrest : rest = []
      · subst hrest
        simp [areaBatchLoop, AREA_BATCH_SIZE]
      · refine ⟨?_, ?_, ?_, ?_⟩
        · simp only [areaBatchLoop, List.map_cons, List.map_nil]
          rw [r1]
          simp
        · simp only [areaBatchLoop, List.flatten_cons]
          rw [r2]
          simp
        · intro bb hbb
          simp only [areaBatchLoop, List.mem_cons] at hbb
          rcases hbb with rfl | hbb
          · exact ⟨by simp, by simp [AREA_BATCH_SIZE]⟩
          · exact r3 bb hbb
        · intro _
          have hne : rest.isEmpty = false := by
            simp [List.isEmpty_iff, hrest]
          simp only [areaBatchLoop, hne, Bool.false_eq_true, if_false,
            List.length_cons]
          have := r4 hrest
          omega

/-- Claim C6: with no region selected, the listing is built by fetching every
known region (in order, in batches of at most 3, with one inter-batch delay
between consecutive batches), concatenating the per-region item lists,
re-sorting the merged list by the requested key, slicing the requested page
window of 20, and taking `totalCount` (and `totalPages`) from the merged
list's size rather than any single region's count. -/
theorem multiRegionMerge_spec (fetch : AreaCodeInfo → Option TourListResponse)
    (koCompare : String → String → ℤ) (areaCodes : List AreaCodeInfo)
    (sortBy : SortBy) (pageNo : ℕ) :
    (multiRegionTourData fetch koCompare areaCodes sortBy pageNo).1.items =
      ((sortMergedItems koCompare sortBy
          ((areaCodes.map (fun a => (fetchOrEmpty fetch a).items)).flatten)).drop
        ((pageNo - 1) * 20)).take 20 ∧
    (multiRegionTourData fetch koCompare areaCodes sortBy pageNo).1.pagination =
      { pageNo := pageNo, numOfRows := 20,
        totalCount :=
          ((areaCodes.map (fun a => (fetchOrEmpty fetch a).items)).flatten).length,
        totalPages :=
          jsCeilDiv
            ((areaCodes.map (fun a => (fetchOrEmpty fetch a).items)).flatten).length
            20 } ∧
    (multiRegionTourData fetch koCompare areaCodes sortBy pageNo).2.1.flatten =
      areaCodes ∧
    (∀ b ∈ (multiRegionTourData fetch koCompare areaCodes sortBy pageNo).2.1,
      b ≠ [] ∧ b.length ≤ AREA_BATCH_SIZE) ∧
    (areaCodes ≠ [] →
      (multiRegionTourData fetch koCompare areaCodes sortBy pageNo).2.2 + 1 =
        (multiRegionTourData fetch koCompare areaCodes sortBy pageNo).2.1.length) := by
  obtain ⟨r1, r2, r3, r4⟩ :=
    areaBatchLoop_spec fetch areaCodes.length areaCodes le_rfl
  have hmerged :
      ((areaBatchLoop fetch areaCodes).1.map (·.items)).flatten =
        (areaCodes.map (fun a => (fetchOrEmpty fetch a).items)).flatten := by
    rw [r1, List.map_map]
    rfl
  refine ⟨?_, ?_, ?_, ?_, ?_⟩ <;>
    simp only [multiRegionTourData, hmerged, r2, r3, r4]
  · intro bb hbb
    exact r3 bb hbb
  · intro hne
    exact r4 hne

/-- Witness for C6 at four regions (one answering, three failing): two
batches of 3 and 1 regions, one inter-batch delay, merged count 2, and the
page holding the two items re-sorted descending by modifiedtime. -/
theorem multiRegionMerge_spec_witness :
    areasC6 ≠ [] ∧
    (multiRegionTourData fetchC6 koCompareZero areasC6
        SortBy.modifiedtime 1).2.2 + 1 =
      (multiRegionTourData fetchC6 koCompareZero areasC6
        SortBy.modifiedtime 1).2.1.length ∧
    (multiRegionTourData fetchC6 koCompareZero areasC6
        SortBy.modifiedtime 1).1.items = [tourC6b, tourC6a] ∧
    (multiRegionTourData fetchC6 koCompareZero areasC6
        SortBy.modifiedtime 1).1.pagination.totalCount = 2 ∧
    (multiRegionTourData fetchC6 koCompareZero areasC6
        SortBy.modifiedtime 1).2.1 =
      [[{ code := "1", name := "서울" }, { code := "2", name := "인천" },
        { code := "3", name := "대전" }], [{ code := "4", name := "대구" }]] :=
  ⟨by decide,
   (multiRegionMerge_spec fetchC6 koCompareZero areasC6
     SortBy.modifiedtime 1).2.2.2.2 (by decide),
   by decide, by decide, by decide⟩

/-! ## Statistics percentages (claim C7) -/

/-- Dividing each entry of a list by the list's (non-zero) total and scaling
by 100 sums to exactly 100. -/
theorem sum_map_div_total (l : List ℚ) (hT : l.sum ≠ 0) :
    (l.map (fun c => c / l.sum * 100)).sum = 100 := by
  have hcong : l.map (fun c => c / l.sum * 100) =
      l.map (fun c => c * (100 / l.sum)) := by
    apply List.map_congr_left
    intro c _
    ring
  rw [hcong, List.sum_map_mul_right]
  field_simp

/-- Claim C7: `attachPercentages` gives every entry the percentage
`count / totalCount * 100` (0 when the total is 0) where `totalCount` is the
sum of all counts; consequently the percentages sum to exactly 100 (over ℚ;
the source computes in floats, which is the "± rounding" of the claim)
whenever the total is positive, and every percentage is 0 when the total
is 0. -/
theorem statsPercentages_spec (stats : List StatEntry) :
    ((attachPercentages stats).map (·.percentage) =
      stats.map (fun s =>
        if 0 < (stats.map (·.count)).sum
        then (s.count : ℚ) / (((stats.map (·.count)).sum : ℕ) : ℚ) * 100
        else 0)) ∧
    (0 < (stats.map (·.count)).sum →
      ((attachPercentages stats).map (·.percentage)).sum = 100) ∧
    ((stats.map (·.count)).sum = 0 →
      ∀ e ∈ attachPercentages stats, e.percentage = 0) := by
  refine ⟨?_, ?_, ?_⟩
  · simp [attachPercentages, List.map_map, Function.comp]
  · intro h
    have hTset : (((stats.map (·.count)).sum : ℕ) : ℚ) =
        (stats.map (fun s => ((s.count : ℚ)))).sum := by
      rw [Nat.cast_list_sum, List.map_map]
      rfl
    have hTne : (stats.map (fun s => ((s.count : ℚ)))).sum ≠ 0 := by
      rw [← hTset]
      exact_mod_cast h.ne'
    have e1 : (attachPercentages stats).map (·.percentage) =
        (stats.map (fun s => ((s.count : ℚ)))).map
          (fun c => c / (stats.map (fun s => ((s.count : ℚ)))).sum * 100) := by
      simp only [attachPercentages, List.map_map]
      apply List.map_congr_left
      intro s _
      simp only [Function.comp_apply]
      rw [if_pos h, hTset]
    rw [e1]
    exact sum_map_div_total _ hTne
  · intro h e he
    simp only [attachPercentages, List.mem_map] at he
    obtain ⟨s, _, rfl⟩ := he
    simp [h]

/-- Witness for C7 at counts [1, 3]: percentages [25, 75], summing to 100. -/
theorem statsPercentages_spec_witness :
    0 < (statsC7.map (·.count)).sum ∧
    ((attachPercentages statsC7).map (·.percentage)).sum = 100 ∧
    (attachPercentages statsC7).map (·.percentage) = [25, 75] := by
  refine ⟨by decide, (statsPercentages_spec statsC7).2.1 (by decide), ?_⟩
  norm_num [attachPercentages, statsC7]

/-! ## Top-3 ranking (claim C8) -/

/-- Stable insertion grows the length by one. -/
theorem jsStableInsert_length {α : Type} (le : α → α → Bool) (a : α)
    (l : List α) : (jsStableInsert le a l).length = l.length + 1 := by
  induction l with
  | nil => rfl
  | cons b t ih =>
    simp only [jsStableInsert]
    split
    · simp
    · simp [ih]

/-- The stable sort preserves length. -/
theorem jsStableSort_length {α : Type} (le : α → α → Bool) (l : List α) :
    (jsStableSort le l).length = l.length := by
  induction l with
  | nil => rfl
  | cons a t ih => simp [jsStableSort, jsStableInsert_length, ih]

/-- Membership in a stable insertion. -/
theorem mem_jsStableInsert {α : Type} (le : α → α → Bool) (a x : α)
    (l : List α) :
    x ∈ jsStableInsert le a l ↔ x = a ∨ x ∈ l := by
  induction l with
  | nil => simp [jsStableInsert]
  | cons b t ih =>
    simp only [jsStableInsert]
    split
    · simp [List.mem_cons]
    · simp [List.mem_cons, ih]
      tauto

/-- Inserting into a list sorted by a total, transitive boolean relation
keeps it sorted. -/
theorem jsStableInsert_pairwise {α : Type} (le : α → α → Bool)
    (htot : ∀ a b, le a b = false → le b a = true)
    (htrans : ∀ a b c, le a b = true → le b c = true → le a c = true)
    (a : α) (l : List α)
    (hl : List.Pairwise (fun x y => le x y = true) l) :
    List.Pairwise (fun x y => le x y = true) (jsStableInsert le a l) := by
  induction l with
  | nil => simp [jsStableInsert]
  | cons b t ih =>
    simp only [jsStableInsert]
    rcases List.pairwise_cons.mp hl with ⟨hb, ht⟩
    split
    · rename_i hle
      refine List.pairwise_cons.mpr ⟨?_, hl⟩
      intro x hx
      rcases List.mem_cons.mp hx with rfl | hx
      · exact hle
      · exact htrans a b x hle (hb x hx)
    · rename_i hnle
      have hab : le a b = false := by
        rcases Bool.eq_false_or_eq_true (le a b) with hh | hh
        · exact absurd hh hnle
        · exact hh
      have hba : le b a = true := htot a b hab
      refine List.pairwise_cons.mpr ⟨?_, ih ht⟩
      intro x hx
      rcases (mem_jsStableInsert le a x t).mp hx with rfl | hx
      · exact hba
      · exact hb x hx

/-- The stable sort produces a list sorted by a total, transitive boolean
relation. -/
theorem jsStableSort_pairwise {α : Type} (le : α → α → Bool)
    (htot : ∀ a b, le a b = false → le b a = true)
    (htrans : ∀ a b c, le a b = true → le b c = true → le a c = true)
    (l : List α) :
    List.Pairwise (fun x y => le x y = true) (jsStableSort le l) := by
  induction l with
  | nil => simp [jsStableSort]
  | cons a t ih =>
    exact jsStableInsert_pairwise le htot htrans a _ ih

/-- The attached ranks are consecutive, starting just above the start
index. -/
theorem attachRanks_map_rank :
    ∀ (l : List StatEntry) (i : ℕ),
      (attachRanks i l).map (·.rank) = List.range' (i + 1) l.length := by
  intro l
  induction l with
  | nil => intro i; rfl
  | cons s rest ih =>
    intro i
    simp [attachRanks, List.range'_succ, ih (i + 1)]

/-- Rank attachment preserves length. -/
theorem attachRanks_length :
    ∀ (l : List StatEntry) (i : ℕ), (attachRanks i l).length = l.length := by
  intro l
  induction l with
  | nil => intro i; rfl
  | cons s rest ih => intro i; simp [attachRanks, ih (i + 1)]

/-- Rank attachment preserves the counts. -/
theorem attachRanks_map_count :
    ∀ (l : List StatEntry) (i : ℕ),
      (attachRanks i l).map (·.count) = l.map (·.count) := by
  intro l
  induction l with
  | nil => intro i; rfl
  | cons s rest ih => intro i; simp [attachRanks, ih (i + 1)]

/-- Claim C8: the top-3 extraction sorts descending by count (stably, so
among equal counts the earlier input entry ranks first), takes the first 3,
and attaches 1-based ranks; on counts [5, 50, 20, 5] it yields 50 at rank 1,
20 at rank 2, and the first 5 at rank 3.  In general the result has
`min 3 n` entries, ranks 1, 2, ... in order, and non-increasing counts. -/
theorem topStats_spec :
    topStats statsC8 =
      [{ code := "r2", name := "B", count := 50, rank := 1 },
       { code := "r3", name := "C", count := 20, rank := 2 },
       { code := "r1", name := "A", count := 5, rank := 3 }] ∧
    ∀ stats : List StatEntry,
      (topStats stats).length = min 3 stats.length ∧
      (topStats stats).map (·.rank) = List.range' 1 (min 3 stats.length) ∧
      List.Pairwise (fun x y => y ≤ x) ((topStats stats).map (·.count)) := by
  constructor
  · decide
  · intro stats
    have hlen : ((jsStableSort (fun a b => b.count ≤ a.count) stats).take 3).length =
        min 3 stats.length := by
      simp [List.length_take, jsStableSort_length]
    refine ⟨?_, ?_, ?_⟩
    · simp [topStats, attachRanks_length, hlen]
    · rw [topStats, attachRanks_map_rank, hlen]
    · have hsorted := jsStableSort_pairwise (fun a b => decide (b.count ≤ a.count))
        (fun a b hab => by
          simp only [decide_eq_false_iff_not, Nat.not_le] at hab
          simpa using hab.le)
        (fun a b c hab hbc => by
          simp only [decide_eq_true_eq] at hab hbc ⊢
          exact le_trans hbc hab)
        stats
      have htake := hsorted.sublist (List.take_sublist 3 _)
      rw [topStats]
      have hcnt := attachRanks_map_count
        ((jsStableSort (fun a b => b.count ≤ a.count) stats).take 3) 0
      rw [hcnt]
      rw [List.pairwise_map]
      exact htake.imp (fun h => by simpa using h)
